import Mathlib

/-!
Verification of the Agdas free-fall gravimeter estimation engine
(`classes.py`): shallow embedding of the `Fall` drop estimator, its
least-squares solver, the design-matrix builder, the derived-quantity
methods, and the `estim` result writer, together with theorems settling
the specification's claims about them.

Real-valued numerics are embedded over `ℝ`; `np.linalg.lstsq` is modelled
by its mathematical contract for full-column-rank systems (normal-equation
solution together with the residual sum of squares).  `estim.printResult`
is embedded over `ℚ` with an exact half-even decimal rounding, the
idealisation of Python's `round` ignoring binary floating-point
representation error.
-/

namespace Agdas

noncomputable section

open Real Matrix Finset

/-- Speed of light in nm/s, `self.c = 2.99792458e+17` from `Fall.__init__`. -/
def c : ℝ := 2.99792458e17

/-- Calibration context of one drop: the scalar attributes of a `Fall`
instance (`Lambda`, `scaleFactor`, `multiplex`, `gradient` as stored by
`setGradient`, `fmod`, `Lpar`, `rubiFreq`, `ksol`) together with the raw
fringe readings `self.fringe`. -/
structure FallCtx where
  Lambda : ℝ
  scaleFactor : ℝ
  multiplex : ℝ
  gradient : ℝ
  fmod : ℝ
  Lpar : ℝ
  rubiFreq : ℝ
  ksol : ℝ
  fringe : ℕ → ℝ

/-- Expected free-fall position of fringe `i`:
`z1[i] = self.Lambda/2*(i)*self.multiplex*self.scaleFactor` (line 88). -/
def z1 (ctx : FallCtx) (i : ℕ) : ℝ :=
  ctx.Lambda / 2 * (i : ℝ) * ctx.multiplex * ctx.scaleFactor

/-- Light-travel-time corrected fringe time:
`self.tt[i] = self.fringe[i]*(1e7/self.rubiFreq)+self.ksol*z1[i]/self.c`
(line 90). -/
def tt (ctx : FallCtx) (i : ℕ) : ℝ :=
  ctx.fringe i * (1e7 / ctx.rubiFreq) + ctx.ksol * z1 ctx i / c

/-- `arg1 = 2*np.pi*self.fmod*self.tt[i]` (line 93). -/
def arg1 (ctx : FallCtx) (i : ℕ) : ℝ := 2 * Real.pi * ctx.fmod * tt ctx i

/-- `arg2 = 2*np.pi*self.fmod*2*z1[i]/self.c` (line 94). -/
def arg2 (ctx : FallCtx) (i : ℕ) : ℝ := 2 * Real.pi * ctx.fmod * 2 * z1 ctx i / c

/-- `z_v0 = self.tt[i]` (line 104). -/
def z_v0 (ctx : FallCtx) (i : ℕ) : ℝ := tt ctx i

/-- `z_g0 = (self.tt[i]**2)/2` (line 105). -/
def z_g0 (ctx : FallCtx) (i : ℕ) : ℝ := (tt ctx i) ^ 2 / 2

/-- `z_v0_grad = self.tt[i]+(self.gradient/6)*(self.tt[i])**3` (line 100). -/
def z_v0_grad (ctx : FallCtx) (i : ℕ) : ℝ :=
  tt ctx i + (ctx.gradient / 6) * (tt ctx i) ^ 3

/-- `z_g0_grad = (self.tt[i]**2)/2+(self.gradient/24)*self.tt[i]**4` (line 101). -/
def z_g0_grad (ctx : FallCtx) (i : ℕ) : ℝ :=
  (tt ctx i) ^ 2 / 2 + (ctx.gradient / 24) * (tt ctx i) ^ 4

/-- `z_a1 = np.sin(arg1)*np.cos(arg2)` (line 107). -/
def z_a1 (ctx : FallCtx) (i : ℕ) : ℝ := Real.sin (arg1 ctx i) * Real.cos (arg2 ctx i)

/-- `z_a2 = np.cos(arg1)*np.cos(arg2)` (line 108). -/
def z_a2 (ctx : FallCtx) (i : ℕ) : ℝ := Real.cos (arg1 ctx i) * Real.cos (arg2 ctx i)

/-- `z_a3 = np.sin(arg1)*np.sin(arg2)` (line 109). -/
def z_a3 (ctx : FallCtx) (i : ℕ) : ℝ := Real.sin (arg1 ctx i) * Real.sin (arg2 ctx i)

/-- `z_a4 = np.cos(arg1)*np.sin(arg2)` (line 110). -/
def z_a4 (ctx : FallCtx) (i : ℕ) : ℝ := Real.cos (arg1 ctx i) * Real.sin (arg2 ctx i)

/-- `z_a5 = np.sin(2*np.pi*z1[i]/self.Lpar)` (line 111). -/
def z_a5 (ctx : FallCtx) (i : ℕ) : ℝ := Real.sin (2 * Real.pi * z1 ctx i / ctx.Lpar)

/-- `z_a6 = np.cos(2*np.pi*z1[i]/self.Lpar)` (line 112). -/
def z_a6 (ctx : FallCtx) (i : ℕ) : ℝ := Real.cos (2 * Real.pi * z1 ctx i / ctx.Lpar)

/-- Row `i` of the unconstrained design matrix:
`line = [z_z0, z_v0, z_g0, z_a3, z_a1, z_a4, z_a2, z_a5, z_a6]` (line 118). -/
def line (ctx : FallCtx) (i : ℕ) : Fin 9 → ℝ :=
  ![1, z_v0 ctx i, z_g0 ctx i, z_a3 ctx i, z_a1 ctx i, z_a4 ctx i, z_a2 ctx i,
    z_a5 ctx i, z_a6 ctx i]

/-- Row `i` of the gradient-corrected design matrix:
`line_grad = [z_z0, z_v0_grad, z_g0_grad, z_a3, z_a1, z_a4, z_a2, z_a5, z_a6]`
(line 116). -/
def line_grad (ctx : FallCtx) (i : ℕ) : Fin 9 → ℝ :=
  ![1, z_v0_grad ctx i, z_g0_grad ctx i, z_a3 ctx i, z_a1 ctx i, z_a4 ctx i,
    z_a2 ctx i, z_a5 ctx i, z_a6 ctx i]

/-- Full-range unconstrained design matrix `A1` (`A1[i,:] = line`, line 127). -/
def A1 (ctx : FallCtx) : ℕ → Fin 9 → ℝ := fun i => line ctx i

/-- Full-range gradient-corrected design matrix `A_grad1`
(`A_grad1[i,:] = line_grad`, line 120). -/
def A_grad1 (ctx : FallCtx) : ℕ → Fin 9 → ℝ := fun i => line_grad ctx i

/-- `modkor = np.matmul(A_grad1[:,3:], x[0][3:])` (line 172): row `i` of
columns 3..8 (0-based) of the full gradient matrix dotted with the last six
unconstrained unknowns. -/
def modkor (ctx : FallCtx) (x : Fin 9 → ℝ) (i : ℕ) : ℝ :=
  ∑ j : Fin 6, A_grad1 ctx i (j.addNat 3) * x (j.addNat 3)

/-- Observation vector of the modulation-corrected solve:
`zgrad[:] = [z1[i]-x[0][2]/2*self.tt[i]**2 ...]` followed by
`zgrad = np.subtract(zgrad, modkor.transpose())` (lines 170-173). -/
def zgrad (ctx : FallCtx) (x : Fin 9 → ℝ) (i : ℕ) : ℝ :=
  z1 ctx i - x 2 / 2 * (tt ctx i) ^ 2 - modkor ctx x i

/-- Column 2 of the modulation design matrix `A4` (line 169):
`(x[0][1]/6*tt**3+x[0][2]/24*tt**4-(x[0][2]-x_grad[0][2])*tt**2/(self.gradient*2))/1e6`. -/
def A4col2 (ctx : FallCtx) (x xgrad : Fin 9 → ℝ) (i : ℕ) : ℝ :=
  (x 1 / 6 * (tt ctx i) ^ 3 + x 2 / 24 * (tt ctx i) ^ 4 -
    (x 2 - xgrad 2) * (tt ctx i) ^ 2 / (ctx.gradient * 2)) / 1e6

/-- Full-range modulation design matrix `A4` (5 columns): components set at
lines 122-125 (`A4[i,0]=1`, `A4[i,1]=tt`, `A4[i,3]=z_a5`, `A4[i,4]=z_a6`)
and line 169 (`A4[:,2]`). -/
def A4 (ctx : FallCtx) (x xgrad : Fin 9 → ℝ) : ℕ → Fin 5 → ℝ := fun i =>
  ![1, tt ctx i, A4col2 ctx x xgrad i, z_a5 ctx i, z_a6 ctx i]

/-- Full-range residuals of the gradient-corrected solution:
`self.res_grad1 = np.subtract(z1, np.matmul(A_grad1, self.x_grad[0]))`
(line 163). -/
def res_grad1 (ctx : FallCtx) (xgrad : Fin 9 → ℝ) (i : ℕ) : ℝ :=
  z1 ctx i - ∑ j : Fin 9, A_grad1 ctx i j * xgrad j

/-- Drop-acceptance scatter statistic, as a function of the full-range
residual vector `r` (`self.res_grad1`) and the stored statistics-range
bounds (lines 165-166):
`ress = self.res_grad1[self.frminss:self.frmaxss]` and
`self.ssres = np.sqrt(np.dot(ress,ress)/(self.frmaxss-self.frminss+1))`. -/
def ssres (r : ℕ → ℝ) (frminss frmaxss : ℕ) : ℝ :=
  Real.sqrt ((∑ i ∈ Finset.Ico frminss frmaxss, r i * r i) /
    ((frmaxss : ℝ) - (frminss : ℝ) + 1))

/-- Result record of `Fall.computeLST` (line 64 returns the tuple
`x, covar, m02, std, stdX, res`; `x` here is the solution component
`x[0]` of the `lstsq` pair). -/
structure LSTResult (n k : ℕ) where
  x : Fin k → ℝ
  covar : Matrix (Fin k) (Fin k) ℝ
  m02 : ℝ
  std : ℝ
  stdX : Fin k → ℝ
  res : Fin n → ℝ

/-- Model of `np.linalg.lstsq(A, z, rcond=None)` for a full-column-rank
system: the pair of the normal-equation least-squares solution
`(AᵀA)⁻¹Aᵀz` and the residual sum of squares of that solution. -/
def lstsq {n k : ℕ} (A : Matrix (Fin n) (Fin k) ℝ) (z : Fin n → ℝ) :
    (Fin k → ℝ) × ℝ :=
  let x := (Aᵀ * A)⁻¹ *ᵥ (Aᵀ *ᵥ z)
  (x, ∑ i, (z i - (A *ᵥ x) i) * (z i - (A *ᵥ x) i))

/-- `Fall.computeLST` (lines 53-64): least-squares solve, covariance
`(AᵀA)⁻¹`, variance factor
`m02 = x[1]/(self.frmax-self.frmin-A.shape[1]-1)`, parameter standard
deviations `stdX = sqrt(diag(covar)*m02)`, combined scalar
`std = np.dot(stdX, stdX)` and residual vector `res = z - A*x`.
The Python method reads `self.frmin`/`self.frmax`; here they are passed
explicitly.  Real division totalises the Python division (in Python a zero
or negative divisor produces inf/nan values, still a returned result). -/
def computeLST {n k : ℕ} (frmin frmax : ℤ) (A : Matrix (Fin n) (Fin k) ℝ)
    (z : Fin n → ℝ) : LSTResult n k :=
  let x := lstsq A z
  let covar := (Aᵀ * A)⁻¹
  let m02 := x.2 / ((frmax - frmin - (k : ℤ) - 1 : ℤ) : ℝ)
  let stdX := fun j => Real.sqrt (covar j j * m02)
  { x := x.1
    covar := covar
    m02 := m02
    std := ∑ j, stdX j * stdX j
    stdX := stdX
    res := fun i => z i - (A *ᵥ x.1) i }

/-- Error taxonomy of spec §7 relevant to the solver.  No such error class
exists anywhere in the source. -/
inductive FitError where
  | underdetermined
deriving DecidableEq

/-- Modelled from the spec (§4.3, §7): the spec-mandated solver contract,
missing from the source, that "Fails with `UnderdeterminedFitError` when
n − k − 1 ≤ 0" and otherwise returns the regression result; the source
`Fall.computeLST` performs no such check. -/
def computeLSTSpec {n k : ℕ} (frmin frmax : ℤ) (A : Matrix (Fin n) (Fin k) ℝ)
    (z : Fin n → ℝ) : Except FitError (LSTResult n k) :=
  if (n : ℤ) - (k : ℤ) - 1 ≤ 0 then Except.error FitError.underdetermined
  else Except.ok (computeLST frmin frmax A z)

/-- State of a fitted `Fall` instance as read and written by the
derived-quantity methods (lines 188-224): the fit outputs `g0`, `g0_Gr`,
`z0`, `v0`, the stored `gradient`, and the attributes each method binds
(`h`, `Grad`, `htop`, `effectiveZ`, `gTop`, `gTopCor`). -/
structure FallState where
  g0 : ℝ
  g0_Gr : ℝ
  z0 : ℝ
  v0 : ℝ
  gradient : ℝ
  h : ℝ
  Grad : ℝ
  htop : ℝ
  effectiveZ : ℝ
  gTop : ℝ
  gTopCor : ℝ

/-- `Fall.effectiveHeight` (line 199): `self.h = -(self.g0_Gr - self.g0)/self.gradient`. -/
def effectiveHeight (s : FallState) : FallState :=
  { s with h := -(s.g0_Gr - s.g0) / s.gradient }

/-- `Fall.effectiveHeightTop` (lines 205-206):
`self.Grad = self.v0**2/(2*self.g0_Gr)` then `self.htop = self.h + self.Grad`. -/
def effectiveHeightTop (s : FallState) : FallState :=
  let G := s.v0 ^ 2 / (2 * s.g0_Gr)
  { s with Grad := G, htop := s.h + G }

/-- `Fall.effectivePosition` (line 212): `self.effectiveZ = self.h + self.z0`. -/
def effectivePosition (s : FallState) : FallState :=
  { s with effectiveZ := s.h + s.z0 }

/-- `Fall.gTop` (line 218): `self.gTop = self.g0_Gr - self.gradient*self.Grad`. -/
def gTop (s : FallState) : FallState :=
  { s with gTop := s.g0_Gr - s.gradient * s.Grad }

/-- `Fall.gTopCor` (line 224):
`self.gTopCor = self.gTop+10*float(tide)+10*float(load)+10*float(baro)+10*float(polar)`. -/
def gTopCor (tide load baro polar : ℝ) (s : FallState) : FallState :=
  { s with gTopCor := s.gTop + 10 * tide + 10 * load + 10 * baro + 10 * polar }

/-- The derived-quantity methods invoked in the order
`effectiveHeight`, `effectiveHeightTop`, `effectivePosition`, `gTop`,
`gTopCor`. -/
def derivedPipeline (tide load baro polar : ℝ) (s : FallState) : FallState :=
  gTopCor tide load baro polar (gTop (effectivePosition (effectiveHeightTop (effectiveHeight s))))

/-- The slice of a `Fall` instance's Python attribute dictionary relevant
to the `gTop` method: the numeric attributes it reads and the `gTop` slot
itself, which holds `none` while `gTop` still names the class method and
`some v` once line 218 has bound the instance attribute `self.gTop` to the
float `v`, shadowing the method. -/
structure FallPy where
  g0_Gr : ℝ
  gradient : ℝ
  Grad : ℝ
  gTopAttr : Option ℝ

/-- Python call error raised when the looked-up attribute is not callable. -/
inductive PyError where
  | notCallable
deriving DecidableEq

/-- Model of evaluating `self.gTop()` under Python attribute lookup: the
instance dictionary is consulted before the class, so once line 218 has
rebound `self.gTop` to a float the call raises `TypeError` (a float is not
callable); otherwise the class method `Fall.gTop` runs and performs the
rebinding. -/
def callGTop (s : FallPy) : Except PyError FallPy :=
  match s.gTopAttr with
  | some _ => Except.error PyError.notCallable
  | none => Except.ok { s with gTopAttr := some (s.g0_Gr - s.gradient * s.Grad) }

/-- Exact round-half-to-even of a rational to an integer: the idealisation
of Python's banker's rounding. -/
def roundHalfEven (q : ℚ) : ℤ :=
  if q - ⌊q⌋ = 1 / 2 then (if Even ⌊q⌋ then ⌊q⌋ else ⌊q⌋ + 1) else round q

/-- Idealised `round(x, ndigits)` of Python over exact rationals. -/
def pyRound (x : ℚ) (ndigits : ℕ) : ℚ :=
  (roundHalfEven (x * 10 ^ ndigits) : ℚ) / 10 ^ ndigits

/-- `estim.printResult` (lines 505-521): builds
`dropResult = [set, drop, m0[0]]` extended with the interleaved solution
and standard-deviation entries, then rescales/rounds entries 3, 4, 5, 6
and 8 in place.  Embedded over exact rationals with `pyRound` in place of
Python's float `round`. -/
def printResult (set drop : ℚ) (m0 : ℕ → ℚ) (X std : Fin 9 → ℚ) : List ℚ :=
  let l0 := [set, drop, m0 0] ++ (List.finRange 9).flatMap fun i => [X i, std i]
  let l1 := l0.set 3 (pyRound (l0.getD 3 0 * 1e-6) 4)
  let l2 := l1.set 4 (pyRound (l1.getD 4 0 * 1e-6) 14)
  let l3 := l2.set 5 (pyRound (l2.getD 5 0 * 1e-6) 4)
  let l4 := l3.set 6 (pyRound (l3.getD 6 0 * 1e-6) 15)
  l4.set 8 (pyRound (l4.getD 8 0) 3)

/-- `Fall.setFrRange` (lines 45-47): stores `(self.frmin, self.frmax) =
(frmin - 1, frmax)` from parameters `(frmin, frmax)`, lower bound first. -/
def setFrRange (frmin frmax : ℤ) : ℤ × ℤ := (frmin - 1, frmax)

/-- `Fall.setFRssRange` (lines 49-51): stores `(self.frmaxss, self.frminss)
= (frmaxss, frminss - 1)` from parameters `(frmaxss, frminss)`, upper bound
first — the reverse of `setFrRange`'s parameter order — decrementing only
the second parameter. -/
def setFRssRange (frmaxss frminss : ℤ) : ℤ × ℤ := (frmaxss, frminss - 1)

/-- Concrete calibration context exercising the periodic columns: with
`fringe 0 = 1/4`, `rubiFreq = 1e7` and `fmod = 1` the fringe `i = 0` has
`z1 = 0`, `tt = 1/4`, hence `arg1 = π/2` and `arg2 = 0`. -/
def ctx0 : FallCtx :=
  { Lambda := 1, scaleFactor := 1, multiplex := 1, gradient := 1, fmod := 1,
    Lpar := 1, rubiFreq := 1e7, ksol := 1, fringe := fun _ => 1 / 4 }

/-- Constant residual vector used to probe the scatter statistic. -/
def rC6 : ℕ → ℝ := fun _ => 1

/-- Concrete underdetermined system: two rows, one column, so
n − k − 1 = 0. -/
def AC7 : Matrix (Fin 2) (Fin 1) ℝ := !![1; 1]

/-- Observations for the underdetermined system `AC7`. -/
def zC7 : Fin 2 → ℝ := ![0, 2]

/-- Concrete well-posed system: three rows, one column, n − k − 1 = 1. -/
def AC2 : Matrix (Fin 3) (Fin 1) ℝ := !![1; 1; 1]

/-- Observations for the system `AC2`. -/
def zC2 : Fin 3 → ℝ := ![1, 2, 3]

/-- Concrete fitted state for the derived-quantity witness. -/
def sC3 : FallState :=
  { g0 := 9800000000, g0_Gr := 9800000500, z0 := 3, v0 := 100, gradient := -3000,
    h := 0, Grad := 0, htop := 0, effectiveZ := 0, gTop := 0, gTopCor := 0 }

/-- Concrete instance state for the attribute-shadowing witness: `gTop`
not yet called. -/
def sC9 : FallPy := { g0_Gr := 5, gradient := 2, Grad := 3, gTopAttr := none }

/-- C10: `Fall.setFRssRange` takes its two statistics-range bounds in the
order `(frmaxss, frminss)` — upper bound first, the reverse of
`setFrRange`'s `(frmin, frmax)` — stores the first argument unchanged as
`frmaxss` and decrements only the second argument into `frminss`; hence a
call passing `(lo, hi)` positionally in (min, max) order silently stores
the swapped range `frmaxss = lo`, `frminss = hi − 1`, whereas `setFrRange`
on the same arguments stores `(lo − 1, hi)`. -/
theorem C10_setFRssRange_argument_order (lo hi : ℤ) :
    setFRssRange lo hi = (lo, hi - 1) ∧ setFrRange lo hi = (lo - 1, hi) :=
  ⟨rfl, rfl⟩

/-- C5 (amendment-free): for every fringe index, the gradient-corrected
design matrix differs from the unconstrained one only in columns 2 and 3
(1-based): its velocity column is `t + (gradient/6)·t³` and its
acceleration column is `t²/2 + (gradient/24)·t⁴` with `t` the corrected
time, while columns 1 and 4–9 agree with the unconstrained matrix. -/
theorem C5_gradient_matrix_columns (ctx : FallCtx) (i : ℕ) :
    A_grad1 ctx i 1 = tt ctx i + (ctx.gradient / 6) * (tt ctx i) ^ 3 ∧
    A_grad1 ctx i 2 = (tt ctx i) ^ 2 / 2 + (ctx.gradient / 24) * (tt ctx i) ^ 4 ∧
    A_grad1 ctx i 0 = A1 ctx i 0 ∧
    A_grad1 ctx i 3 = A1 ctx i 3 ∧
    A_grad1 ctx i 4 = A1 ctx i 4 ∧
    A_grad1 ctx i 5 = A1 ctx i 5 ∧
    A_grad1 ctx i 6 = A1 ctx i 6 ∧
    A_grad1 ctx i 7 = A1 ctx i 7 ∧
    A_grad1 ctx i 8 = A1 ctx i 8 :=
  ⟨rfl, rfl, rfl, rfl, rfl, rfl, rfl, rfl, rfl⟩

/-- C1 (amended): for every fringe index, columns 4–7 (1-based) of both
the unconstrained and the gradient-corrected design matrices are, in this
order, `sin(φ₁)·sin(φ₂)`, `sin(φ₁)·cos(φ₂)`, `cos(φ₁)·sin(φ₂)`,
`cos(φ₁)·cos(φ₂)` with `φ₁ = 2π·fmod·tt(i)` and
`φ₂ = 2π·fmod·2·z1(i)/c` — not the order (sin·cos, cos·cos, cos·sin,
sin·sin) stated by the claim. -/
theorem C1_periodic_columns (ctx : FallCtx) (i : ℕ) :
    A1 ctx i 3 = Real.sin (arg1 ctx i) * Real.sin (arg2 ctx i) ∧
    A1 ctx i 4 = Real.sin (arg1 ctx i) * Real.cos (arg2 ctx i) ∧
    A1 ctx i 5 = Real.cos (arg1 ctx i) * Real.sin (arg2 ctx i) ∧
    A1 ctx i 6 = Real.cos (arg1 ctx i) * Real.cos (arg2 ctx i) ∧
    A_grad1 ctx i 3 = Real.sin (arg1 ctx i) * Real.sin (arg2 ctx i) ∧
    A_grad1 ctx i 4 = Real.sin (arg1 ctx i) * Real.cos (arg2 ctx i) ∧
    A_grad1 ctx i 5 = Real.cos (arg1 ctx i) * Real.sin (arg2 ctx i) ∧
    A_grad1 ctx i 6 = Real.cos (arg1 ctx i) * Real.cos (arg2 ctx i) :=
  ⟨rfl, rfl, rfl, rfl, rfl, rfl, rfl, rfl⟩

/-- C1 counterexample: in the context `ctx0` at fringe 0 (where
`φ₁ = π/2`, `φ₂ = 0`), column 4 of the unconstrained matrix is
`sin(φ₁)·sin(φ₂) = 0`, not the claimed `sin(φ₁)·cos(φ₂) = 1`. -/
theorem C1_counterexample :
    ¬ (A1 ctx0 0 3 = Real.sin (arg1 ctx0 0) * Real.cos (arg2 ctx0 0)) := by
  have hz : z1 ctx0 0 = 0 := by simp [z1, ctx0]
  have ht : tt ctx0 0 = 1 / 4 := by
    simp only [tt, hz]
    norm_num [ctx0, c]
  have h1 : arg1 ctx0 0 = Real.pi / 2 := by
    rw [arg1, ht]
    show 2 * Real.pi * ctx0.fmod * (1 / 4) = Real.pi / 2
    simp [ctx0]
    ring
  have h2 : arg2 ctx0 0 = 0 := by
    rw [arg2, hz]
    simp
  have hA : A1 ctx0 0 3 = Real.sin (arg1 ctx0 0) * Real.sin (arg2 ctx0 0) := rfl
  rw [hA, h1, h2]
  simp [Real.sin_pi_div_two]

/-- C4: the modulation-corrected solve's observation vector subtracts from
the expected position the unconstrained parabolic term `x[2]/2·t²` and the
dot product of columns 4–9 of the full-range gradient design matrix with
the unconstrained unknowns `x[3..8]`; and column index 2 of the 5-column
modulation matrix is
`(x[1]/6·t³ + x[2]/24·t⁴ − (x[2]−x_grad[2])·t²/(2·gradient))/1e6`. -/
theorem C4_modulation_solve_inputs (ctx : FallCtx) (x xgrad : Fin 9 → ℝ) (i : ℕ) :
    zgrad ctx x i =
      z1 ctx i - x 2 / 2 * (tt ctx i) ^ 2 -
        ∑ j : Fin 6, A_grad1 ctx i (j.addNat 3) * x (j.addNat 3) ∧
    A4 ctx x xgrad i 2 =
      (x 1 / 6 * (tt ctx i) ^ 3 + x 2 / 24 * (tt ctx i) ^ 4 -
        (x 2 - xgrad 2) * (tt ctx i) ^ 2 / (2 * ctx.gradient)) / 1e6 := by
  refine ⟨rfl, ?_⟩
  have h : A4 ctx x xgrad i 2 = A4col2 ctx x xgrad i := rfl
  rw [h, A4col2]
  ring

/-- C3: after invoking, in order, `effectiveHeight`, `effectiveHeightTop`,
`effectivePosition`, `gTop` and `gTopCor` on a fitted drop with nonzero
gradient, the derived attributes are exactly
`h = −(g0_apex − g0)/gradient`, `Grad = v0²/(2·g0_apex)`,
`htop = h + Grad`, `effectiveZ = h + z0`, `gTop = g0_apex − gradient·Grad`
and `gTopCor = gTop + 10·(tide + load + baro + polar)`. -/
theorem C3_derived_quantities (s : FallState) (tide load baro polar : ℝ)
    (_hg : s.gradient ≠ 0) :
    (derivedPipeline tide load baro polar s).h = -(s.g0_Gr - s.g0) / s.gradient ∧
    (derivedPipeline tide load baro polar s).Grad = s.v0 ^ 2 / (2 * s.g0_Gr) ∧
    (derivedPipeline tide load baro polar s).htop =
      (derivedPipeline tide load baro polar s).h +
        (derivedPipeline tide load baro polar s).Grad ∧
    (derivedPipeline tide load baro polar s).effectiveZ =
      (derivedPipeline tide load baro polar s).h + s.z0 ∧
    (derivedPipeline tide load baro polar s).gTop =
      s.g0_Gr - s.gradient * (derivedPipeline tide load baro polar s).Grad ∧
    (derivedPipeline tide load baro polar s).gTopCor =
      (derivedPipeline tide load baro polar s).gTop +
        10 * (tide + load + baro + polar) := by
  refine ⟨rfl, rfl, rfl, rfl, rfl, ?_⟩
  have h : (derivedPipeline tide load baro polar s).gTopCor =
      (derivedPipeline tide load baro polar s).gTop +
        10 * tide + 10 * load + 10 * baro + 10 * polar := rfl
  rw [h]
  ring

/-- C3 witness at the fixture of spec §8 (g0 = 9800000000,
g0_apex = 9800000500, gradient = −3000). -/
theorem C3_witness :
    sC3.gradient ≠ 0 ∧
    ((derivedPipeline 1 2 3 4 sC3).h = -(sC3.g0_Gr - sC3.g0) / sC3.gradient ∧
     (derivedPipeline 1 2 3 4 sC3).Grad = sC3.v0 ^ 2 / (2 * sC3.g0_Gr) ∧
     (derivedPipeline 1 2 3 4 sC3).htop =
       (derivedPipeline 1 2 3 4 sC3).h + (derivedPipeline 1 2 3 4 sC3).Grad ∧
     (derivedPipeline 1 2 3 4 sC3).effectiveZ =
       (derivedPipeline 1 2 3 4 sC3).h + sC3.z0 ∧
     (derivedPipeline 1 2 3 4 sC3).gTop =
       sC3.g0_Gr - sC3.gradient * (derivedPipeline 1 2 3 4 sC3).Grad ∧
     (derivedPipeline 1 2 3 4 sC3).gTopCor =
       (derivedPipeline 1 2 3 4 sC3).gTop + 10 * (1 + 2 + 3 + 4)) :=
  ⟨by norm_num [sC3], C3_derived_quantities sC3 1 2 3 4 (by norm_num [sC3])⟩

/-- C9: on an instance whose `gTop` attribute slot is still unbound, one
call to the `gTop` method succeeds and rebinds the instance attribute
`gTop` to the number `g0_Gr − gradient·Grad`, shadowing the method; any
state returned by that successful call fails on a second call because the
attribute is no longer callable. -/
theorem C9_gTop_shadows_method (s : FallPy) (h : s.gTopAttr = none) :
    callGTop s = Except.ok { s with gTopAttr := some (s.g0_Gr - s.gradient * s.Grad) } ∧
    ∀ s', callGTop s = Except.ok s' → callGTop s' = Except.error PyError.notCallable := by
  have h1 : callGTop s =
      Except.ok { s with gTopAttr := some (s.g0_Gr - s.gradient * s.Grad) } := by
    unfold callGTop
    rw [h]
  refine ⟨h1, fun s' hs' => ?_⟩
  rw [h1] at hs'
  have h2 : s' = { s with gTopAttr := some (s.g0_Gr - s.gradient * s.Grad) } :=
    (Except.ok.inj hs').symm
  rw [h2]
  rfl

/-- C8: the emitted drop record applies exactly the documented
scale/rounding transformations: entry 3 (z0) scaled by 1e−6 and rounded to
4 places, entry 4 (z0 std) scaled by 1e−6 to 14 places, entry 5 (v0)
scaled by 1e−6 to 4 places, entry 6 (v0 std) scaled by 1e−6 to 15 places,
entry 8 (g0 std) rounded to 3 places unscaled, and every other entry is
emitted unchanged. -/
theorem C8_printResult_rounding (set drop : ℚ) (m0 : ℕ → ℚ) (X std : Fin 9 → ℚ) :
    printResult set drop m0 X std =
      [set, drop, m0 0,
       pyRound (X 0 * 1e-6) 4, pyRound (std 0 * 1e-6) 14,
       pyRound (X 1 * 1e-6) 4, pyRound (std 1 * 1e-6) 15,
       X 2, pyRound (std 2) 3,
       X 3, std 3, X 4, std 4, X 5, std 5, X 6, std 6, X 7, std 7, X 8, std 8] :=
  rfl

/-- C6 (amended): the drop-acceptance scatter statistic is the square root
of the sum of the squared residuals in the statistics range
`[frminss, frmaxss)` divided by `count + 1`, where `count = frmaxss −
frminss` is the number of residuals in that range — i.e. the divisor is
`count + 1`, not the claimed root-mean-square rescaled by
`1/sqrt(count)`. -/
theorem C6_ssres_divisor (r : ℕ → ℝ) (frminss frmaxss : ℕ)
    (h : frminss ≤ frmaxss) :
    ssres r frminss frmaxss =
      Real.sqrt ((∑ i ∈ Finset.Ico frminss frmaxss, r i * r i) /
        (((frmaxss - frminss : ℕ) : ℝ) + 1)) := by
  unfold ssres
  congr 2
  push_cast [h]
  ring

/-- C6 witness: constant residuals 1 on the range [0, 2). -/
theorem C6_witness :
    (0 : ℕ) ≤ 2 ∧
    ssres rC6 0 2 =
      Real.sqrt ((∑ i ∈ Finset.Ico 0 2, rC6 i * rC6 i) /
        (((2 - 0 : ℕ) : ℝ) + 1)) :=
  ⟨by decide, C6_ssres_divisor rC6 0 2 (by decide)⟩

/-- C6 counterexample: with constant residuals 1 on the statistics range
[0, 2) (so count = 2 and the sum of squares is 2), the code computes
`sqrt(2/3)`, whereas the claimed statistic — the root-mean-square
`sqrt(2/2)` scaled by `1/sqrt(2)` — equals `sqrt(1/2)`. -/
theorem C6_counterexample :
    ¬ (ssres rC6 0 2 =
        Real.sqrt ((∑ i ∈ Finset.Ico 0 2, rC6 i * rC6 i) / 2) / Real.sqrt 2) := by
  have hsum : (∑ i ∈ Finset.Ico 0 2, rC6 i * rC6 i) = 2 := by
    simp [rC6]
  rw [hsum]
  unfold ssres
  rw [hsum]
  have hd : (((2 : ℕ) : ℝ) - ((0 : ℕ) : ℝ) + 1) = 3 := by norm_num
  rw [hd]
  intro heq
  have h2 : Real.sqrt ((2 : ℝ) / 2) / Real.sqrt 2 = Real.sqrt (1 / 2) := by
    rw [Real.sqrt_div' 1 (by norm_num)]
    norm_num
  rw [h2] at heq
  have h3 : (2 / 3 : ℝ) = 1 / 2 :=
    (Real.sqrt_inj (by norm_num) (by norm_num)).mp heq
  norm_num at h3

/-- C2: for a coefficient matrix with `n` rows and `k` columns and an
observation vector of length `n = frmax − frmin`, with positive degrees of
freedom and invertible normal matrix, `Fall.computeLST` returns variance
factor `m0² = RSS/(n−k−1)`, parameter standard deviations
`sqrt(diag((AᵀA)⁻¹)·m0²)`, combined scalar `dot(stdX, stdX)` and residual
vector `z − A·x`. -/
theorem C2_computeLST_formulas {n k : ℕ} (frmin frmax : ℤ)
    (A : Matrix (Fin n) (Fin k) ℝ) (z : Fin n → ℝ)
    (hn : (n : ℤ) = frmax - frmin) (_hdof : 0 < (n : ℤ) - k - 1)
    (_hinv : IsUnit (Aᵀ * A).det) :
    (computeLST frmin frmax A z).m02 =
      (∑ i, (computeLST frmin frmax A z).res i * (computeLST frmin frmax A z).res i) /
        ((n : ℝ) - k - 1) ∧
    (∀ j, (computeLST frmin frmax A z).stdX j =
      Real.sqrt ((Aᵀ * A)⁻¹ j j * (computeLST frmin frmax A z).m02)) ∧
    (computeLST frmin frmax A z).std =
      ∑ j, (computeLST frmin frmax A z).stdX j * (computeLST frmin frmax A z).stdX j ∧
    (computeLST frmin frmax A z).res = fun i => z i - (A *ᵥ (computeLST frmin frmax A z).x) i := by
  have hd : ((frmax - frmin - (k : ℤ) - 1 : ℤ) : ℝ) = (n : ℝ) - k - 1 := by
    have h : (frmax - frmin - (k : ℤ) - 1 : ℤ) = (n : ℤ) - k - 1 := by
      rw [hn]
    rw [h]
    push_cast
    ring
  refine ⟨?_, fun j => rfl, rfl, rfl⟩
  have h2 : (computeLST frmin frmax A z).m02 =
      (lstsq A z).2 / ((frmax - frmin - (k : ℤ) - 1 : ℤ) : ℝ) := rfl
  have h3 : (∑ i, (computeLST frmin frmax A z).res i *
      (computeLST frmin frmax A z).res i) = (lstsq A z).2 := rfl
  rw [h2, h3, hd]

/-- C2 witness: the 3×1 system `AC2`, `zC2` over fit range [0, 3), with
one unknown and one degree of freedom. -/
theorem C2_witness :
    ((3 : ℕ) : ℤ) = 3 - 0 ∧ (0 : ℤ) < ((3 : ℕ) : ℤ) - ((1 : ℕ) : ℤ) - 1 ∧
    IsUnit (AC2ᵀ * AC2).det ∧
    ((computeLST 0 3 AC2 zC2).m02 =
      (∑ i, (computeLST 0 3 AC2 zC2).res i * (computeLST 0 3 AC2 zC2).res i) /
        (((3 : ℕ) : ℝ) - ((1 : ℕ) : ℝ) - 1) ∧
     (∀ j, (computeLST 0 3 AC2 zC2).stdX j =
       Real.sqrt ((AC2ᵀ * AC2)⁻¹ j j * (computeLST 0 3 AC2 zC2).m02)) ∧
     (computeLST 0 3 AC2 zC2).std =
       ∑ j, (computeLST 0 3 AC2 zC2).stdX j * (computeLST 0 3 AC2 zC2).stdX j ∧
     (computeLST 0 3 AC2 zC2).res =
       fun i => zC2 i - (AC2 *ᵥ (computeLST 0 3 AC2 zC2).x) i) := by
  have hdet : IsUnit (AC2ᵀ * AC2).det := by
    have h : (AC2ᵀ * AC2).det = 3 := by
      rw [Matrix.det_fin_one]
      norm_num [Matrix.mul_apply, AC2, Fin.sum_univ_three, Matrix.vecHead,
        Matrix.vecTail]
    rw [h]
    exact isUnit_iff_ne_zero.mpr (by norm_num)
  exact ⟨by decide, by decide, hdet,
    C2_computeLST_formulas 0 3 AC2 zC2 (by decide) (by decide) hdet⟩

/-- C7 (amended): `Fall.computeLST` performs no degrees-of-freedom check:
even when `n − k − 1 ≤ 0` it returns a result — the least-squares solution
together with the variance factor `RSS/(frmax − frmin − k − 1)` over a
nonpositive divisor — whereas the spec-modelled solver contract fails with
`UnderdeterminedFitError`; no such error exists in the code. -/
theorem C7_no_dof_check {n k : ℕ} (frmin frmax : ℤ)
    (A : Matrix (Fin n) (Fin k) ℝ) (z : Fin n → ℝ)
    (hdof : (n : ℤ) - k - 1 ≤ 0) :
    computeLSTSpec frmin frmax A z = Except.error FitError.underdetermined ∧
    (computeLST frmin frmax A z).x = (lstsq A z).1 ∧
    (computeLST frmin frmax A z).m02 =
      (lstsq A z).2 / ((frmax - frmin - (k : ℤ) - 1 : ℤ) : ℝ) := by
  refine ⟨?_, rfl, rfl⟩
  unfold computeLSTSpec
  rw [if_pos hdof]

/-- C7 witness: the 2×1 system `AC7`, `zC7` has `n − k − 1 = 0`. -/
theorem C7_witness :
    ((2 : ℕ) : ℤ) - ((1 : ℕ) : ℤ) - 1 ≤ 0 ∧
    (computeLSTSpec 0 2 AC7 zC7 = Except.error FitError.underdetermined ∧
     (computeLST 0 2 AC7 zC7).x = (lstsq AC7 zC7).1 ∧
     (computeLST 0 2 AC7 zC7).m02 =
       (lstsq AC7 zC7).2 / (((2 : ℤ) - 0 - ((1 : ℕ) : ℤ) - 1 : ℤ) : ℝ)) :=
  ⟨by decide, C7_no_dof_check 0 2 AC7 zC7 (by decide)⟩

/-- C7 counterexample: on the concrete underdetermined system `AC7`,
`zC7` (2 rows, 1 column, so n − k − 1 = 0), the spec-mandated behavior is
an `UnderdeterminedFitError`, yet the implementation computes and returns
the least-squares solution `![1]` rather than failing. -/
theorem C7_counterexample :
    computeLSTSpec 0 2 AC7 zC7 = Except.error FitError.underdetermined ∧
    (computeLST 0 2 AC7 zC7).x = ![1] := by
  constructor
  · unfold computeLSTSpec
    rw [if_pos (by decide)]
  · have h0 : (computeLST 0 2 AC7 zC7).x = (AC7ᵀ * AC7)⁻¹ *ᵥ (AC7ᵀ *ᵥ zC7) := rfl
    have hAtA : AC7ᵀ * AC7 = !![2] := by
      ext i j
      fin_cases i
      fin_cases j
      norm_num [Matrix.mul_apply, AC7, Fin.sum_univ_two, Matrix.vecHead,
        Matrix.vecTail]
    have hinv : (!![2] : Matrix (Fin 1) (Fin 1) ℝ)⁻¹ = !![1 / 2] := by
      rw [Matrix.inv_def, Matrix.adjugate_fin_one, Matrix.det_fin_one]
      ext i j
      fin_cases i
      fin_cases j
      norm_num [Ring.inverse_eq_inv]
    have hAtz : AC7ᵀ *ᵥ zC7 = ![2] := by
      ext i
      fin_cases i
      norm_num [Matrix.mulVec, Matrix.dotProduct, AC7, zC7, Fin.sum_univ_two,
        Matrix.vecHead, Matrix.vecTail]
    rw [h0, hAtA, hinv, hAtz]
    ext i
    fin_cases i
    norm_num [Matrix.mulVec, Matrix.dotProduct, Fin.sum_univ_one]

/-- C9 witness on the concrete fresh instance `sC9`. -/
theorem C9_witness :
    sC9.gTopAttr = none ∧
    (callGTop sC9 =
      Except.ok { sC9 with gTopAttr := some (sC9.g0_Gr - sC9.gradient * sC9.Grad) } ∧
     ∀ s', callGTop sC9 = Except.ok s' →
       callGTop s' = Except.error PyError.notCallable) :=
  ⟨rfl, C9_gTop_shadows_method sC9 rfl⟩

end

end Agdas
